import Mathlib

/-
Verification of the offline mutation queue and reconciliation engine of the
secretvault client.  The definitions below are a shallow embedding of the
JavaScript source: DatabaseService (local store: users, passwords, sync_queue
tables), SyncService (NetInfo listener, subscriber fan-out, performSync drain
cycle, per-item dispatch), and the remote-call behaviour of AuthService and the
password endpoints.  SQLite statement execution and network responses are
modelled by explicit oracles (Bool success flags and a RemoteOutcome-valued
environment), so that every control path of the source is represented.
-/

/-- One row of the sync_queue table (the mutation log). -/
structure SyncQueueItem where
  id : Nat
  table_name : String
  record_id : Nat
  operation : String
  data : Option String
  created_at : Nat
  attempts : Nat
deriving Repr, DecidableEq

/-- One row of the users table. -/
structure UserRow where
  id : Nat
  google_id : String
  email : String
  name : String
  picture : String
  verified_email : Nat
  is_active : Nat
  synced : Nat
deriving Repr, DecidableEq

/-- One row of the passwords table. -/
structure PasswordRow where
  id : Nat
  user_id : Nat
  title : String
  username : String
  password : String
  website : String
  notes : String
  created_at : Nat
  updated_at : Nat
  synced : Nat
  deleted : Nat
deriving Repr, DecidableEq

/-- The SQLite database state: the three tables, the AUTOINCREMENT counters,
and the value of CURRENT_TIMESTAMP. -/
structure DBState where
  users : List UserRow
  passwords : List PasswordRow
  sync_queue : List SyncQueueItem
  nextUserId : Nat
  nextPasswordId : Nat
  nextQueueId : Nat
  now : Nat
deriving Repr, DecidableEq

/-- Input of DatabaseService.savePassword and updatePassword. -/
structure PasswordData where
  title : String
  username : String
  password : String
  website : String
  notes : String
deriving Repr, DecidableEq

/-- Input of DatabaseService.saveUserOffline (Google user info). -/
structure UserInfo where
  id : String
  email : String
  name : String
  picture : String
  verified_email : Bool
deriving Repr, DecidableEq

/-- Stand-in for JSON.stringify on a PasswordData payload. -/
def serializePasswordData (pd : PasswordData) : String :=
  pd.title ++ "|" ++ pd.username ++ "|" ++ pd.password ++ "|" ++ pd.website ++ "|" ++ pd.notes

/-- DatabaseService.addToSyncQueue.  The INSERT into sync_queue is modelled by
the sqlOk oracle; on failure the JavaScript catches the error, logs it and
returns normally, so the state is unchanged and no error propagates. -/
def addToSyncQueue (sqlOk : Bool) (tableName : String) (recordId : Nat)
    (operation : String) (data : Option String) (st : DBState) : DBState :=
  if sqlOk then
    { st with
      sync_queue := st.sync_queue ++
        [{ id := st.nextQueueId, table_name := tableName, record_id := recordId,
           operation := operation, data := data, created_at := st.now, attempts := 0 }],
      nextQueueId := st.nextQueueId + 1 }
  else st

/-- DatabaseService.savePassword: INSERT into passwords (entitySqlOk oracle),
then addToSyncQueue; an entity-insert failure is rethrown, a queue failure is
swallowed inside addToSyncQueue. -/
def savePassword (entitySqlOk queueSqlOk : Bool) (userId : Nat)
    (pd : PasswordData) (st : DBState) : Except String (DBState × Nat) :=
  if entitySqlOk then
    let pid := st.nextPasswordId
    let st1 := { st with
      passwords := st.passwords ++
        [{ id := pid, user_id := userId, title := pd.title, username := pd.username,
           password := pd.password, website := pd.website, notes := pd.notes,
           created_at := st.now, updated_at := st.now, synced := 0, deleted := 0 }],
      nextPasswordId := pid + 1 }
    Except.ok (addToSyncQueue queueSqlOk "passwords" pid "INSERT"
      (some (serializePasswordData pd)) st1, pid)
  else Except.error "Failed to save password"

/-- DatabaseService.updatePassword: UPDATE the row (synced reset to 0), then
addToSyncQueue with the UPDATE operation. -/
def updatePassword (entitySqlOk queueSqlOk : Bool) (passwordId : Nat)
    (pd : PasswordData) (st : DBState) : Except String DBState :=
  if entitySqlOk then
    let st1 := { st with
      passwords := st.passwords.map (fun r =>
        if r.id == passwordId then
          { r with title := pd.title, username := pd.username, password := pd.password,
                   website := pd.website, notes := pd.notes,
                   updated_at := st.now, synced := 0 }
        else r) }
    Except.ok (addToSyncQueue queueSqlOk "passwords" passwordId "UPDATE"
      (some (serializePasswordData pd)) st1)
  else Except.error "Failed to update password"

/-- DatabaseService.deletePassword: soft delete (deleted=1, synced=0), then
addToSyncQueue with the DELETE operation and a null payload. -/
def deletePassword (entitySqlOk queueSqlOk : Bool) (passwordId : Nat)
    (st : DBState) : Except String DBState :=
  if entitySqlOk then
    let st1 := { st with
      passwords := st.passwords.map (fun r =>
        if r.id == passwordId then
          { r with deleted := 1, synced := 0, updated_at := st.now }
        else r) }
    Except.ok (addToSyncQueue queueSqlOk "passwords" passwordId "DELETE" none st1)
  else Except.error "Failed to delete password"

/-- DatabaseService.saveUserOffline: INSERT OR REPLACE into users keyed on the
google_id and email UNIQUE columns; synced=0, is_active defaults to 1.  It does
not touch the sync_queue table. -/
def saveUserOffline (sqlOk : Bool) (u : UserInfo) (st : DBState) :
    Except String (DBState × Nat) :=
  if sqlOk then
    let uid := st.nextUserId
    let kept := st.users.filter (fun r => r.google_id != u.id && r.email != u.email)
    Except.ok ({ st with
      users := kept ++
        [{ id := uid, google_id := u.id, email := u.email, name := u.name,
           picture := u.picture, verified_email := if u.verified_email then 1 else 0,
           is_active := 1, synced := 0 }],
      nextUserId := uid + 1 }, uid)
  else Except.error "Failed to save user offline"

/-- Stable insertion step for ORDER BY created_at ASC. -/
def insertByCreatedAt (x : SyncQueueItem) : List SyncQueueItem → List SyncQueueItem
  | [] => [x]
  | y :: ys => if y.created_at < x.created_at then y :: insertByCreatedAt x ys else x :: y :: ys

/-- Stable sort by created_at ascending (rowid order among ties). -/
def sortByCreatedAt : List SyncQueueItem → List SyncQueueItem
  | [] => []
  | x :: xs => insertByCreatedAt x (sortByCreatedAt xs)

/-- DatabaseService.getSyncQueue: SELECT * FROM sync_queue ORDER BY created_at ASC. -/
def getSyncQueue (st : DBState) : List SyncQueueItem :=
  sortByCreatedAt st.sync_queue

/-- DatabaseService.removeSyncQueueItem: DELETE FROM sync_queue WHERE id = ?.
Errors are caught and logged, never rethrown. -/
def removeSyncQueueItem (qid : Nat) (st : DBState) : DBState :=
  { st with sync_queue := st.sync_queue.filter (fun it => it.id != qid) }

/-- The raw UPDATE sync_queue SET attempts = attempts + 1 WHERE id = ? issued by
SyncService.performSync in the per-item catch block. -/
def incrementAttempts (qid : Nat) (st : DBState) : DBState :=
  { st with sync_queue := st.sync_queue.map (fun it =>
      if it.id == qid then { it with attempts := it.attempts + 1 } else it) }

/-- DatabaseService.markAsSynced: UPDATE of the interpolated table name; an
unknown table name makes the SQL fail, which is caught and logged. -/
def markAsSynced (tableName : String) (recordId : Nat) (st : DBState) : DBState :=
  if tableName == "users" then
    { st with users := st.users.map (fun r =>
        if r.id == recordId then { r with synced := 1 } else r) }
  else if tableName == "passwords" then
    { st with passwords := st.passwords.map (fun r =>
        if r.id == recordId then { r with synced := 1 } else r) }
  else st

/-- Outcome of one network request: 2xx, non-2xx with a server message, or a
transport-level failure of fetch. -/
inductive RemoteOutcome where
  | ok : RemoteOutcome
  | rejected : RemoteOutcome
  | transportErr : RemoteOutcome
deriving Repr, DecidableEq

/-- Environment of one drain cycle: whether AuthService.getCurrentUser yields a
user, the response of the remote API per (table, record id, operation), and
whether the attempts-increment SQL statement succeeds per queue id. -/
structure SyncEnv where
  hasCurrentUser : Bool
  remote : String → Nat → String → RemoteOutcome
  incrementAttemptsOk : Nat → Bool

/-- SyncService.syncUser.  Only INSERT is implemented; AuthService.saveUserToDB
returns success=false without throwing on a non-2xx response and throws only on
transport errors.  The second component counts network requests issued. -/
def syncUser (env : SyncEnv) (recordId : Nat) (operation : String)
    (st : DBState) : Except String DBState × Nat :=
  if operation == "INSERT" then
    match env.remote "users" recordId "INSERT" with
    | RemoteOutcome.ok => (Except.ok (markAsSynced "users" recordId st), 1)
    | RemoteOutcome.rejected => (Except.ok st, 1)
    | RemoteOutcome.transportErr => (Except.error "User sync failed", 1)
  else (Except.ok st, 0)

/-- SyncService.syncPassword.  Throws when no authenticated user is available;
the per-operation server helpers throw on any non-ok response; an operation
outside INSERT/UPDATE/DELETE falls through the switch without throwing. -/
def syncPassword (env : SyncEnv) (recordId : Nat) (operation : String)
    (st : DBState) : Except String DBState × Nat :=
  if env.hasCurrentUser == false then
    (Except.error "Password sync failed: No authenticated user found", 0)
  else if operation == "INSERT" then
    match env.remote "passwords" recordId "INSERT" with
    | RemoteOutcome.ok => (Except.ok (markAsSynced "passwords" recordId st), 1)
    | _ => (Except.error "Password sync failed", 1)
  else if operation == "UPDATE" then
    match env.remote "passwords" recordId "UPDATE" with
    | RemoteOutcome.ok => (Except.ok (markAsSynced "passwords" recordId st), 1)
    | _ => (Except.error "Password sync failed", 1)
  else if operation == "DELETE" then
    match env.remote "passwords" recordId "DELETE" with
    | RemoteOutcome.ok => (Except.ok st, 1)
    | _ => (Except.error "Password sync failed", 1)
  else (Except.ok st, 0)

/-- SyncService.processSyncItem: dispatch on table_name; the default branch
only logs a warning and returns normally. -/
def processSyncItem (env : SyncEnv) (item : SyncQueueItem) (st : DBState) :
    Except String DBState × Nat :=
  if item.table_name == "users" then syncUser env item.record_id item.operation st
  else if item.table_name == "passwords" then syncPassword env item.record_id item.operation st
  else (Except.ok st, 0)

/-- Whether processSyncItem completes without throwing for this item; this
depends only on the environment and the item fields, never on the tables. -/
def itemSucceeds (env : SyncEnv) (item : SyncQueueItem) : Bool :=
  if item.table_name == "users" then
    if item.operation == "INSERT" then
      match env.remote "users" item.record_id "INSERT" with
      | RemoteOutcome.transportErr => false
      | _ => true
    else true
  else if item.table_name == "passwords" then
    if env.hasCurrentUser == false then false
    else if item.operation == "INSERT" then
      match env.remote "passwords" item.record_id "INSERT" with
      | RemoteOutcome.ok => true
      | _ => false
    else if item.operation == "UPDATE" then
      match env.remote "passwords" item.record_id "UPDATE" with
      | RemoteOutcome.ok => true
      | _ => false
    else if item.operation == "DELETE" then
      match env.remote "passwords" item.record_id "DELETE" with
      | RemoteOutcome.ok => true
      | _ => false
    else true
  else true

/-- Number of network requests processSyncItem issues for this item. -/
def itemCalls (env : SyncEnv) (item : SyncQueueItem) : Nat :=
  if item.table_name == "users" then
    if item.operation == "INSERT" then 1 else 0
  else if item.table_name == "passwords" then
    if env.hasCurrentUser == false then 0
    else if item.operation == "INSERT" then 1
    else if item.operation == "UPDATE" then 1
    else if item.operation == "DELETE" then 1
    else 0
  else 0

/-- Result of the try block of performSync: either the loop over the snapshot
ran to completion with the final database and counters, or an unexpected
exception (a failing attempts-increment statement) escaped with the database as
it stood at the throw point. -/
inductive BodyOutcome where
  | completed : DBState → Nat → Nat → BodyOutcome
  | threw : String → DBState → BodyOutcome
deriving Repr, DecidableEq

/-- The for-loop of performSync over the queue snapshot: on a non-throwing item
remove it and count it synced; on a throwing item count it failed and run the
attempts-increment statement, whose own failure escapes the loop.  The second
component counts network requests. -/
def runBody (env : SyncEnv) : List SyncQueueItem → DBState → Nat → Nat → BodyOutcome × Nat
  | [], db, s, f => (BodyOutcome.completed db s f, 0)
  | item :: rest, db, s, f =>
    match processSyncItem env item db with
    | (Except.ok db1, n) =>
      ((runBody env rest (removeSyncQueueItem item.id db1) (s + 1) f).fst,
       n + (runBody env rest (removeSyncQueueItem item.id db1) (s + 1) f).snd)
    | (Except.error _, n) =>
      if env.incrementAttemptsOk item.id then
        ((runBody env rest (incrementAttempts item.id db) s (f + 1)).fst,
         n + (runBody env rest (incrementAttempts item.id db) s (f + 1)).snd)
      else (BodyOutcome.threw "Failed to increment attempts" db, n)

/-- The database evolution of the loop alone (used to state invariants). -/
def runQueue (env : SyncEnv) : List SyncQueueItem → DBState → DBState
  | [], db => db
  | item :: rest, db =>
    match processSyncItem env item db with
    | (Except.ok db1, _) => runQueue env rest (removeSyncQueueItem item.id db1)
    | (Except.error _, _) => runQueue env rest (incrementAttempts item.id db)

/-- Events delivered to SyncService subscribers. -/
inductive SyncEvent where
  | isOnlineEvt : Bool → SyncEvent
  | syncInProgressEvt : Bool → SyncEvent
  | syncCompletedEvt : Nat → Nat → SyncEvent
  | syncFailedEvt : String → SyncEvent
deriving Repr, DecidableEq

/-- Return value of performSync. -/
structure SyncResult where
  success : Bool
  message : String
  syncedCount : Option Nat
  failedCount : Option Nat
deriving Repr, DecidableEq

/-- Mutable fields of the SyncService singleton relevant to a drain cycle. -/
structure SyncState where
  isOnline : Bool
  syncInProgress : Bool
  db : DBState
deriving Repr, DecidableEq

/-- Full observable outcome of one performSync invocation: the new service
state, the returned result, the events broadcast in order, and the number of
network requests issued. -/
structure SyncOutput where
  state : SyncState
  result : SyncResult
  events : List SyncEvent
  gatewayCalls : Nat
deriving Repr, DecidableEq

/-- SyncService.performSync: reentrancy guard, offline guard, then the guarded
try/catch/finally drain cycle.  The finally block clears syncInProgress and
broadcasts the progress-end event on every path through the cycle body. -/
def performSync (env : SyncEnv) (force : Bool) (ss : SyncState) : SyncOutput :=
  if ss.syncInProgress && !force then
    { state := ss,
      result := { success := false, message := "Sync already in progress",
                  syncedCount := none, failedCount := none },
      events := [], gatewayCalls := 0 }
  else if !ss.isOnline then
    { state := ss,
      result := { success := false, message := "Device is offline",
                  syncedCount := none, failedCount := none },
      events := [], gatewayCalls := 0 }
  else
    match runBody env (getSyncQueue ss.db) ss.db 0 0 with
    | (BodyOutcome.completed db s f, calls) =>
      { state := { ss with db := db, syncInProgress := false },
        result := { success := true, message := "Synced " ++ toString s ++ " items",
                    syncedCount := some s, failedCount := some f },
        events := [SyncEvent.syncInProgressEvt true, SyncEvent.syncCompletedEvt s f,
                   SyncEvent.syncInProgressEvt false],
        gatewayCalls := calls }
    | (BodyOutcome.threw msg db, calls) =>
      { state := { ss with db := db, syncInProgress := false },
        result := { success := false, message := msg,
                    syncedCount := none, failedCount := none },
        events := [SyncEvent.syncInProgressEvt true, SyncEvent.syncFailedEvt msg,
                   SyncEvent.syncInProgressEvt false],
        gatewayCalls := calls }

/-- One firing of the NetInfo listener installed in the SyncService
constructor: record the new online flag, schedule an auto sync exactly when the
previous state was offline and the report is online, and notify subscribers
with an isOnline event on every report. -/
structure NetInfoStep where
  isOnline : Bool
  autoSyncScheduled : Bool
  events : List SyncEvent
deriving Repr, DecidableEq

def netInfoHandler (online : Bool) (connected : Bool) : NetInfoStep :=
  { isOnline := connected,
    autoSyncScheduled := (!online) && connected,
    events := [SyncEvent.isOnlineEvt connected] }

/-- Fold the listener over a sequence of NetInfo reports, returning the final
online flag, how many auto syncs were scheduled, and all events emitted. -/
def runNetInfoReports (online : Bool) : List Bool → Bool × Nat × List SyncEvent
  | [] => (online, 0, [])
  | c :: rest =>
    let h := netInfoHandler online c
    let r := runNetInfoReports h.isOnline rest
    (r.fst, (if h.autoSyncScheduled then 1 else 0) + r.snd.fst, h.events ++ r.snd.snd)

/-- Number of offline-to-online edges in a report sequence. -/
def countUpEdges (online : Bool) : List Bool → Nat
  | [] => 0
  | c :: rest => (if (!online) && c then 1 else 0) + countUpEdges c rest

/-- A subscriber of SyncService.subscribe, identified by its position of
registration; throws records whether its callback raises when invoked. -/
structure Subscriber where
  id : Nat
  throws : Bool
deriving Repr, DecidableEq

/-- SyncService.subscribe pushes onto the listeners array. -/
def subscribe (ls : List Subscriber) (c : Subscriber) : List Subscriber :=
  ls ++ [c]

/-- The unsubscribe closure returned by subscribe: replaces the stored array by
a filtered copy, leaving any snapshot already being iterated untouched. -/
def unsubscribe (ls : List Subscriber) (c : Subscriber) : List Subscriber :=
  ls.filter (fun x => x.id != c.id)

/-- SyncService.notifyListeners: listeners.forEach(cb => cb(data)).  Returns
the ids invoked in order and whether an exception escaped; forEach does not
catch, so a throwing callback ends the pass. -/
def notifyListeners (ls : List Subscriber) : List Nat × Bool :=
  match ls with
  | [] => ([], false)
  | c :: rest =>
    if c.throws then ([c.id], true)
    else
      let r := notifyListeners rest
      (c.id :: r.fst, r.snd)

/-- Increment of the attempts column, as applied to a single row. -/
def bumpAttempts (it : SyncQueueItem) : SyncQueueItem :=
  { it with attempts := it.attempts + 1 }

lemma bumpAttempts_id (it : SyncQueueItem) : (bumpAttempts it).id = it.id := rfl

lemma filter_cons_true (p : SyncQueueItem → Bool) (a : SyncQueueItem)
    (l : List SyncQueueItem) (h : p a = true) :
    (a :: l).filter p = a :: l.filter p :=
  List.filter_cons_of_pos h

lemma filter_cons_false (p : SyncQueueItem → Bool) (a : SyncQueueItem)
    (l : List SyncQueueItem) (h : ¬ p a = true) :
    (a :: l).filter p = l.filter p :=
  List.filter_cons_of_neg h

lemma markAsSynced_sync_queue (t : String) (r : Nat) (st : DBState) :
    (markAsSynced t r st).sync_queue = st.sync_queue := by
  unfold markAsSynced
  split
  · rfl
  · split
    · rfl
    · rfl

lemma processSyncItem_ok_queue (env : SyncEnv) (item : SyncQueueItem) (st st1 : DBState)
    (n : Nat) (h : processSyncItem env item st = (Except.ok st1, n)) :
    st1.sync_queue = st.sync_queue := by
  unfold processSyncItem syncUser syncPassword at h
  repeat' split at h
  all_goals simp_all
  all_goals rw [← h.1]
  all_goals simp [markAsSynced_sync_queue]

lemma processSyncItem_ok_succeeds (env : SyncEnv) (item : SyncQueueItem) (st st1 : DBState)
    (n : Nat) (h : processSyncItem env item st = (Except.ok st1, n)) :
    itemSucceeds env item = true := by
  unfold processSyncItem syncUser syncPassword at h
  unfold itemSucceeds
  repeat' split at h
  all_goals simp_all

lemma processSyncItem_err_fails (env : SyncEnv) (item : SyncQueueItem) (st : DBState)
    (e : String) (n : Nat) (h : processSyncItem env item st = (Except.error e, n)) :
    itemSucceeds env item = false := by
  unfold processSyncItem syncUser syncPassword at h
  unfold itemSucceeds
  repeat' split at h
  all_goals simp_all

lemma processSyncItem_calls (env : SyncEnv) (item : SyncQueueItem) (st : DBState) :
    (processSyncItem env item st).snd = itemCalls env item := by
  unfold processSyncItem syncUser syncPassword itemCalls
  repeat' split
  all_goals simp_all

lemma insertByCreatedAt_perm (x : SyncQueueItem) (l : List SyncQueueItem) :
    List.Perm (insertByCreatedAt x l) (x :: l) := by
  induction l with
  | nil => simp [insertByCreatedAt]
  | cons y ys ih =>
    unfold insertByCreatedAt
    split
    · exact (ih.cons y).trans (List.Perm.swap x y ys)
    · exact List.Perm.refl _

lemma sortByCreatedAt_perm (l : List SyncQueueItem) :
    List.Perm (sortByCreatedAt l) l := by
  induction l with
  | nil => exact List.Perm.refl _
  | cons x xs ih => exact (insertByCreatedAt_perm x _).trans (ih.cons x)

lemma getSyncQueue_perm (st : DBState) :
    List.Perm (getSyncQueue st) st.sync_queue :=
  sortByCreatedAt_perm st.sync_queue

lemma mem_getSyncQueue (st : DBState) (item : SyncQueueItem) :
    item ∈ getSyncQueue st ↔ item ∈ st.sync_queue :=
  (getSyncQueue_perm st).mem_iff

lemma getSyncQueue_ids_nodup (st : DBState)
    (h : (st.sync_queue.map (fun it => it.id)).Nodup) :
    ((getSyncQueue st).map (fun it => it.id)).Nodup :=
  (((getSyncQueue_perm st).map (fun it => it.id)).nodup_iff).mpr h

/-- The net effect of one snapshot item on the stored sync_queue rows: a
non-throwing item deletes its row, a throwing one bumps its attempts. -/
def applyOutcome (env : SyncEnv) (q : List SyncQueueItem) (item : SyncQueueItem) :
    List SyncQueueItem :=
  if itemSucceeds env item then q.filter (fun it => it.id != item.id)
  else q.map (fun it => if it.id == item.id then bumpAttempts it else it)

lemma runQueue_sync_queue (env : SyncEnv) (items : List SyncQueueItem) :
    ∀ db : DBState,
      (runQueue env items db).sync_queue = items.foldl (applyOutcome env) db.sync_queue := by
  induction items with
  | nil => intro db; rfl
  | cons item rest ih =>
    intro db
    rw [List.foldl_cons]
    unfold runQueue
    split
    next db1 n heq =>
      rw [ih]
      have hq : db1.sync_queue = db.sync_queue := processSyncItem_ok_queue env item db db1 n heq
      have hs : itemSucceeds env item = true := processSyncItem_ok_succeeds env item db db1 n heq
      have : (removeSyncQueueItem item.id db1).sync_queue = applyOutcome env db.sync_queue item := by
        unfold removeSyncQueueItem applyOutcome
        rw [hs, hq]
        simp
      rw [this]
    next e n heq =>
      rw [ih]
      have hs : itemSucceeds env item = false := processSyncItem_err_fails env item db e n heq
      have : (incrementAttempts item.id db).sync_queue = applyOutcome env db.sync_queue item := by
        unfold incrementAttempts applyOutcome bumpAttempts
        rw [hs]
        simp
      rw [this]

lemma filter_id_after_remove (q : List SyncQueueItem) (i j : Nat) (hij : i ≠ j) :
    (q.filter (fun it => it.id != j)).filter (fun it => it.id == i)
      = q.filter (fun it => it.id == i) := by
  induction q with
  | nil => rfl
  | cons a q ih =>
    by_cases haj : a.id = j
    · have h1 : ¬ ((a.id != j) = true) := by simp [haj]
      have h2 : ¬ ((a.id == i) = true) := by
        simp only [beq_iff_eq, haj]
        exact fun he => hij he.symm
      rw [filter_cons_false (fun it => it.id != j) a q h1,
        filter_cons_false (fun it => it.id == i) a q h2, ih]
    · have h1 : (a.id != j) = true := bne_iff_ne.mpr haj
      rw [filter_cons_true (fun it => it.id != j) a q h1]
      by_cases hai : a.id = i
      · have h2 : (a.id == i) = true := beq_iff_eq.mpr hai
        rw [filter_cons_true (fun it => it.id == i) a (q.filter (fun it => it.id != j)) h2,
          filter_cons_true (fun it => it.id == i) a q h2, ih]
      · have h2 : ¬ ((a.id == i) = true) := by simp [hai]
        rw [filter_cons_false (fun it => it.id == i) a (q.filter (fun it => it.id != j)) h2,
          filter_cons_false (fun it => it.id == i) a q h2, ih]

lemma filter_id_after_bump_ne (q : List SyncQueueItem) (i j : Nat) (hij : i ≠ j) :
    ((q.map (fun it => if it.id == j then bumpAttempts it else it)).filter
        (fun it => it.id == i))
      = q.filter (fun it => it.id == i) := by
  induction q with
  | nil => rfl
  | cons a q ih =>
    simp only [List.map_cons]
    by_cases haj : a.id = j
    · have hj : (a.id == j) = true := beq_iff_eq.mpr haj
      rw [if_pos hj]
      have h2 : ¬ (((bumpAttempts a).id == i) = true) := by
        simp only [bumpAttempts_id, beq_iff_eq, haj]
        exact fun he => hij he.symm
      have h3 : ¬ ((a.id == i) = true) := by
        simp only [beq_iff_eq, haj]
        exact fun he => hij he.symm
      rw [filter_cons_false (fun it => it.id == i) (bumpAttempts a)
          (q.map (fun it => if it.id == j then bumpAttempts it else it)) h2,
        filter_cons_false (fun it => it.id == i) a q h3, ih]
    · have hj : ¬ ((a.id == j) = true) := by simp [haj]
      rw [if_neg hj]
      by_cases hai : a.id = i
      · have h2 : (a.id == i) = true := beq_iff_eq.mpr hai
        rw [filter_cons_true (fun it => it.id == i) a
            (q.map (fun it => if it.id == j then bumpAttempts it else it)) h2,
          filter_cons_true (fun it => it.id == i) a q h2, ih]
      · have h2 : ¬ ((a.id == i) = true) := by simp [hai]
        rw [filter_cons_false (fun it => it.id == i) a
            (q.map (fun it => if it.id == j then bumpAttempts it else it)) h2,
          filter_cons_false (fun it => it.id == i) a q h2, ih]

lemma filter_id_after_remove_self (q : List SyncQueueItem) (i : Nat) :
    (q.filter (fun it => it.id != i)).filter (fun it => it.id == i) = [] := by
  induction q with
  | nil => rfl
  | cons a q ih =>
    by_cases hai : a.id = i
    · have h1 : ¬ ((a.id != i) = true) := by simp [hai]
      rw [filter_cons_false (fun it => it.id != i) a q h1, ih]
    · have h1 : (a.id != i) = true := bne_iff_ne.mpr hai
      rw [filter_cons_true (fun it => it.id != i) a q h1]
      have h2 : ¬ ((a.id == i) = true) := by simp [hai]
      rw [filter_cons_false (fun it => it.id == i) a (q.filter (fun it => it.id != i)) h2, ih]

lemma filter_id_after_bump_self (q : List SyncQueueItem) (i : Nat) :
    ((q.map (fun it => if it.id == i then bumpAttempts it else it)).filter
        (fun it => it.id == i))
      = (q.filter (fun it => it.id == i)).map bumpAttempts := by
  induction q with
  | nil => rfl
  | cons a q ih =>
    simp only [List.map_cons]
    by_cases hai : a.id = i
    · have hj : (a.id == i) = true := beq_iff_eq.mpr hai
      rw [if_pos hj]
      have h2 : ((bumpAttempts a).id == i) = true := by
        rw [bumpAttempts_id]
        exact hj
      rw [filter_cons_true (fun it => it.id == i) (bumpAttempts a)
          (q.map (fun it => if it.id == i then bumpAttempts it else it)) h2,
        filter_cons_true (fun it => it.id == i) a q hj, List.map_cons, ih]
    · have hj : ¬ ((a.id == i) = true) := by simp [hai]
      rw [if_neg hj,
        filter_cons_false (fun it => it.id == i) a
          (q.map (fun it => if it.id == i then bumpAttempts it else it)) hj,
        filter_cons_false (fun it => it.id == i) a q hj, ih]

lemma foldl_applyOutcome_untouched (env : SyncEnv) (items : List SyncQueueItem) :
    ∀ (q : List SyncQueueItem) (i : Nat), (∀ y ∈ items, y.id ≠ i) →
      (items.foldl (applyOutcome env) q).filter (fun it => it.id == i)
        = q.filter (fun it => it.id == i) := by
  induction items with
  | nil => intro q i _; rfl
  | cons y rest ih =>
    intro q i h
    rw [List.foldl_cons, ih _ i (fun z hz => h z (List.mem_cons_of_mem y hz))]
    have hyi : i ≠ y.id := fun he => (h y (List.mem_cons_self y rest)) he.symm
    unfold applyOutcome
    split
    · exact filter_id_after_remove q i y.id hyi
    · exact filter_id_after_bump_ne q i y.id hyi

lemma foldl_applyOutcome_fate (env : SyncEnv) (items : List SyncQueueItem) :
    ∀ (q : List SyncQueueItem) (x : SyncQueueItem),
      (items.map (fun it => it.id)).Nodup → x ∈ items →
      (items.foldl (applyOutcome env) q).filter (fun it => it.id == x.id)
        = if itemSucceeds env x then []
          else (q.filter (fun it => it.id == x.id)).map bumpAttempts := by
  induction items with
  | nil => intro q x _ hx; exact absurd hx (List.not_mem_nil x)
  | cons y rest ih =>
    intro q x hnd hx
    rw [List.map_cons] at hnd
    obtain ⟨h1, h2⟩ := List.nodup_cons.mp hnd
    rcases List.mem_cons.mp hx with hxy | hxr
    · subst hxy
      rw [List.foldl_cons,
        foldl_applyOutcome_untouched env rest (applyOutcome env q x) x.id
          (fun z hz he => h1 (he ▸ List.mem_map_of_mem (fun it => it.id) hz))]
      unfold applyOutcome
      by_cases hs : itemSucceeds env x = true
      · rw [if_pos hs, if_pos hs]
        exact filter_id_after_remove_self q x.id
      · rw [if_neg hs, if_neg hs]
        exact filter_id_after_bump_self q x.id
    · have hne : x.id ≠ y.id := by
        intro he
        exact h1 (he ▸ List.mem_map_of_mem (fun it => it.id) hxr)
      rw [List.foldl_cons, ih _ x h2 hxr]
      have hq : (applyOutcome env q y).filter (fun it => it.id == x.id)
          = q.filter (fun it => it.id == x.id) := by
        unfold applyOutcome
        split
        · exact filter_id_after_remove q x.id y.id hne
        · exact filter_id_after_bump_ne q x.id y.id hne
      rw [hq]

lemma filter_id_singleton (q : List SyncQueueItem) (x : SyncQueueItem) :
    (q.map (fun it => it.id)).Nodup → x ∈ q →
    q.filter (fun it => it.id == x.id) = [x] := by
  induction q with
  | nil => intro _ hx; exact absurd hx (List.not_mem_nil x)
  | cons a rest ih =>
    intro hnd hx
    rw [List.map_cons] at hnd
    obtain ⟨h1, h2⟩ := List.nodup_cons.mp hnd
    rcases List.mem_cons.mp hx with hxa | hxr
    · subst hxa
      rw [List.filter_cons]
      have hrest : rest.filter (fun it => it.id == x.id) = [] := by
        rw [List.filter_eq_nil_iff]
        intro z hz
        simp only [beq_iff_eq]
        intro he
        exact h1 (he ▸ List.mem_map_of_mem (fun it => it.id) hz)
      simp [hrest]
    · have hne : a.id ≠ x.id := fun he => h1 (he ▸ List.mem_map_of_mem (fun it => it.id) hxr)
      rw [List.filter_cons]
      simp [beq_eq_false_iff_ne.mpr hne, ih h2 hxr]

lemma runBody_eq (env : SyncEnv) (items : List SyncQueueItem) :
    ∀ (db : DBState) (s f : Nat),
      (∀ it ∈ items, env.incrementAttemptsOk it.id = true) →
      runBody env items db s f =
        (BodyOutcome.completed (runQueue env items db)
          (s + items.countP (fun it => itemSucceeds env it))
          (f + items.countP (fun it => !(itemSucceeds env it))),
         (items.map (itemCalls env)).sum) := by
  induction items with
  | nil => intro db s f _; simp [runBody, runQueue]
  | cons item rest ih =>
    intro db s f hok
    have hok' : ∀ it ∈ rest, env.incrementAttemptsOk it.id = true :=
      fun it hit => hok it (List.mem_cons_of_mem item hit)
    have hcall : (processSyncItem env item db).snd = itemCalls env item :=
      processSyncItem_calls env item db
    unfold runBody runQueue
    split
    next db1 n heq =>
      have hs : itemSucceeds env item = true :=
        processSyncItem_ok_succeeds env item db db1 n heq
      have hn : n = itemCalls env item := by
        rw [← hcall, heq]
      rw [ih (removeSyncQueueItem item.id db1) (s + 1) f hok']
      simp only [List.countP_cons, List.map_cons, List.sum_cons, hs, hn,
        Prod.mk.injEq, BodyOutcome.completed.injEq]
      refine ⟨⟨trivial, ?_, ?_⟩, trivial⟩
      · simp [Nat.add_comm, Nat.add_assoc, Nat.add_left_comm]
      · simp
    next e n heq =>
      have hs : itemSucceeds env item = false :=
        processSyncItem_err_fails env item db e n heq
      have hn : n = itemCalls env item := by
        rw [← hcall, heq]
      rw [hok item (List.mem_cons_self item rest)]
      simp only [if_true]
      rw [ih (incrementAttempts item.id db) s (f + 1) hok']
      simp only [List.countP_cons, List.map_cons, List.sum_cons, hs, hn,
        Prod.mk.injEq, BodyOutcome.completed.injEq]
      refine ⟨⟨trivial, ?_, ?_⟩, trivial⟩
      · simp
      · simp [Nat.add_comm, Nat.add_assoc, Nat.add_left_comm]

lemma performSync_run (env : SyncEnv) (force : Bool) (ss : SyncState)
    (hbusy : (ss.syncInProgress && !force) = false)
    (honline : ss.isOnline = true)
    (hincr : ∀ i : Nat, env.incrementAttemptsOk i = true) :
    performSync env force ss =
      { state := { ss with db := runQueue env (getSyncQueue ss.db) ss.db,
                           syncInProgress := false },
        result := { success := true,
                    message := "Synced " ++ toString ((getSyncQueue ss.db).countP (fun it => itemSucceeds env it)) ++ " items",
                    syncedCount := some ((getSyncQueue ss.db).countP (fun it => itemSucceeds env it)),
                    failedCount := some ((getSyncQueue ss.db).countP (fun it => !(itemSucceeds env it))) },
        events := [SyncEvent.syncInProgressEvt true,
                   SyncEvent.syncCompletedEvt ((getSyncQueue ss.db).countP (fun it => itemSucceeds env it)) ((getSyncQueue ss.db).countP (fun it => !(itemSucceeds env it))),
                   SyncEvent.syncInProgressEvt false],
        gatewayCalls := ((getSyncQueue ss.db).map (itemCalls env)).sum } := by
  unfold performSync
  rw [hbusy, honline]
  rw [runBody_eq env (getSyncQueue ss.db) ss.db 0 0 (fun it _ => hincr it.id)]
  simp

lemma performSync_entry_fate (env : SyncEnv) (force : Bool) (ss : SyncState)
    (item : SyncQueueItem)
    (hbusy : (ss.syncInProgress && !force) = false)
    (honline : ss.isOnline = true)
    (hincr : ∀ i : Nat, env.incrementAttemptsOk i = true)
    (hnodup : (ss.db.sync_queue.map (fun it => it.id)).Nodup)
    (hmem : item ∈ ss.db.sync_queue) :
    (performSync env force ss).state.db.sync_queue.filter (fun it => it.id == item.id)
      = if itemSucceeds env item then [] else [bumpAttempts item] := by
  rw [performSync_run env force ss hbusy honline hincr]
  show (runQueue env (getSyncQueue ss.db) ss.db).sync_queue.filter
      (fun it => it.id == item.id) = _
  rw [runQueue_sync_queue]
  have hsnod : ((getSyncQueue ss.db).map (fun it => it.id)).Nodup :=
    getSyncQueue_ids_nodup ss.db hnodup
  have hsm : item ∈ getSyncQueue ss.db := (mem_getSyncQueue ss.db item).mpr hmem
  rw [foldl_applyOutcome_fate env (getSyncQueue ss.db) ss.db.sync_queue item hsnod hsm]
  rw [filter_id_singleton ss.db.sync_queue item hnodup hmem]
  by_cases hs : itemSucceeds env item = true
  · simp [hs]
  · simp [hs]

/-- Force makes no difference once the in-progress flag is clear: the busy
guard is the only place force is consulted. -/
lemma performSync_force_irrelevant (env : SyncEnv) (f1 f2 : Bool) (st : SyncState)
    (h : st.syncInProgress = false) :
    performSync env f1 st = performSync env f2 st := by
  unfold performSync
  rw [h]
  simp

/-- Projection used to state queue contents of a successful write returning a
state only. -/
def queueOfOk (r : Except String DBState) : Option (List SyncQueueItem) :=
  match r with
  | Except.ok st => some st.sync_queue
  | Except.error _ => none

/-- Projection used to state queue contents of a successful write returning a
state and an insert id. -/
def queueOfOkId (r : Except String (DBState × Nat)) : Option (List SyncQueueItem) :=
  match r with
  | Except.ok p => some p.fst.sync_queue
  | Except.error _ => none

/- Concrete fixtures used by counterexamples and witnesses. -/

def dbEmpty : DBState :=
  { users := [], passwords := [], sync_queue := [],
    nextUserId := 1, nextPasswordId := 1, nextQueueId := 1, now := 0 }

def pdSample : PasswordData :=
  { title := "t", username := "u", password := "p", website := "w", notes := "n" }

def uSample : UserInfo :=
  { id := "g1", email := "e1", name := "n1", picture := "pic", verified_email := true }

def envOkAll : SyncEnv :=
  { hasCurrentUser := true, remote := fun _ _ _ => RemoteOutcome.ok,
    incrementAttemptsOk := fun _ => true }

def envRejAll : SyncEnv :=
  { hasCurrentUser := true, remote := fun _ _ _ => RemoteOutcome.rejected,
    incrementAttemptsOk := fun _ => true }

def envFailAll : SyncEnv :=
  { hasCurrentUser := true, remote := fun _ _ _ => RemoteOutcome.transportErr,
    incrementAttemptsOk := fun _ => true }

def envMixed : SyncEnv :=
  { hasCurrentUser := true,
    remote := fun _ r _ => if r == 10 then RemoteOutcome.ok else RemoteOutcome.transportErr,
    incrementAttemptsOk := fun _ => true }

def userRow5 : UserRow :=
  { id := 5, google_id := "g5", email := "e5", name := "n5", picture := "p5",
    verified_email := 1, is_active := 1, synced := 0 }

def itemUserIns : SyncQueueItem :=
  { id := 1, table_name := "users", record_id := 5, operation := "INSERT",
    data := some "d", created_at := 0, attempts := 0 }

def dbC1 : DBState :=
  { users := [userRow5], passwords := [], sync_queue := [itemUserIns],
    nextUserId := 6, nextPasswordId := 1, nextQueueId := 2, now := 3 }

def ssC1 : SyncState := { isOnline := true, syncInProgress := false, db := dbC1 }

def itemWidget : SyncQueueItem :=
  { id := 1, table_name := "widgets", record_id := 7, operation := "CREATE",
    data := none, created_at := 0, attempts := 0 }

def dbWidget : DBState :=
  { dbEmpty with sync_queue := [itemWidget], nextQueueId := 2 }

def ssWidget : SyncState := { isOnline := true, syncInProgress := false, db := dbWidget }

def itemPwIns : SyncQueueItem :=
  { id := 1, table_name := "passwords", record_id := 10, operation := "INSERT",
    data := some "x", created_at := 0, attempts := 0 }

def itemPwUpd : SyncQueueItem :=
  { id := 2, table_name := "passwords", record_id := 11, operation := "UPDATE",
    data := some "y", created_at := 1, attempts := 0 }

def dbPw1 : DBState := { dbEmpty with sync_queue := [itemPwIns], nextQueueId := 2 }

def ssPw1 : SyncState := { isOnline := true, syncInProgress := false, db := dbPw1 }

def dbPw2 : DBState :=
  { dbEmpty with sync_queue := [itemPwIns, itemPwUpd], nextQueueId := 3 }

def ssPw2 : SyncState := { isOnline := true, syncInProgress := false, db := dbPw2 }

def dbAfterC10 : DBState :=
  { dbEmpty with
    sync_queue := [{ id := 2, table_name := "passwords", record_id := 11,
                     operation := "UPDATE", data := some "y", created_at := 1,
                     attempts := 1 }],
    nextQueueId := 3 }

/-- C1 counterexample: a users INSERT entry whose remote call returns a non-2xx
response (saveUserToDB reports success=false without throwing) is nevertheless
removed from the sync queue, and the user row is not marked synced.  This
refutes the claim that an entry is removed only if the remote call succeeded. -/
theorem C1_user_insert_rejected_still_removed :
    envRejAll.remote "users" 5 "INSERT" = RemoteOutcome.rejected
    ∧ (performSync envRejAll false ssC1).state.db.sync_queue = []
    ∧ (performSync envRejAll false ssC1).state.db.users = [userRow5]
    ∧ userRow5.synced = 0 := by
  decide

/-- C1 (amended): within one drain cycle with distinct queue ids and working
attempts-increment statements, an entry is removed from the sync queue exactly
when its processSyncItem dispatch completes without throwing (itemSucceeds);
successful remote calls always lead to removal, but so do the non-throwing
no-op paths (unknown tables, users operations other than INSERT, users INSERT
whose remote save reports failure without throwing). -/
theorem C1_entry_removed_iff_processing_no_throw
    (env : SyncEnv) (force : Bool) (ss : SyncState) (item : SyncQueueItem)
    (hbusy : (ss.syncInProgress && !force) = false)
    (honline : ss.isOnline = true)
    (hincr : ∀ i : Nat, env.incrementAttemptsOk i = true)
    (hnodup : (ss.db.sync_queue.map (fun it => it.id)).Nodup)
    (hmem : item ∈ ss.db.sync_queue) :
    ((performSync env force ss).state.db.sync_queue.filter
        (fun it => it.id == item.id) = [])
      ↔ itemSucceeds env item = true := by
  rw [performSync_entry_fate env force ss item hbusy honline hincr hnodup hmem]
  by_cases hs : itemSucceeds env item = true
  · simp [hs]
  · simp [hs]

/-- Witness for C1: a concrete successful password INSERT entry is removed. -/
theorem C1_entry_removed_iff_processing_no_throw_witness :
    (performSync envOkAll false ssPw1).state.db.sync_queue.filter
        (fun it => it.id == itemPwIns.id) = [] :=
  (C1_entry_removed_iff_processing_no_throw envOkAll false ssPw1 itemPwIns
    rfl rfl (fun _ => rfl) (by decide) (by decide)).mpr (by decide)

/-- C2 counterexample: an entry with an unknown table_name is removed from the
queue by the drain cycle and counted as synced, refuting the claim that it
stays in the sync queue after the cycle. -/
theorem C2_unknown_table_entry_removed :
    (performSync envOkAll false ssWidget).state.db.sync_queue = []
    ∧ (performSync envOkAll false ssWidget).result
        = { success := true, message := "Synced 1 items",
            syncedCount := some 1, failedCount := some 0 } := by
  decide

/-- C2 (amended): an entry whose table_name is not users or passwords is
logged and skipped without error and without any network call, but because the
skip does not throw, the drain cycle removes the entry from the queue
(counting it as synced) instead of leaving it queued. -/
theorem C2_unknown_table_skipped_and_removed
    (env : SyncEnv) (st : DBState) (item : SyncQueueItem)
    (hu : item.table_name ≠ "users") (hp : item.table_name ≠ "passwords") :
    processSyncItem env item st = (Except.ok st, 0)
    ∧ itemSucceeds env item = true
    ∧ itemCalls env item = 0
    ∧ (∀ (force : Bool) (ss : SyncState),
        (ss.syncInProgress && !force) = false → ss.isOnline = true →
        (∀ i : Nat, env.incrementAttemptsOk i = true) →
        (ss.db.sync_queue.map (fun it => it.id)).Nodup → item ∈ ss.db.sync_queue →
        (performSync env force ss).state.db.sync_queue.filter
          (fun it => it.id == item.id) = []) := by
  have h1 : ¬ ((item.table_name == "users") = true) := by simp [hu]
  have h2 : ¬ ((item.table_name == "passwords") = true) := by simp [hp]
  have hsucc : itemSucceeds env item = true := by
    unfold itemSucceeds
    rw [if_neg h1, if_neg h2]
  refine ⟨?_, hsucc, ?_, ?_⟩
  · unfold processSyncItem
    rw [if_neg h1, if_neg h2]
  · unfold itemCalls
    rw [if_neg h1, if_neg h2]
  · intro force ss hb ho hincr hnodup hmem
    rw [performSync_entry_fate env force ss item hb ho hincr hnodup hmem, hsucc]
    simp

/-- Witness for C2: the concrete widgets entry is skipped as a success and
removed from the queue. -/
theorem C2_unknown_table_skipped_and_removed_witness :
    processSyncItem envOkAll itemWidget dbWidget = (Except.ok dbWidget, 0)
    ∧ (performSync envOkAll false ssWidget).state.db.sync_queue.filter
        (fun it => it.id == itemWidget.id) = [] := by
  have h := C2_unknown_table_skipped_and_removed envOkAll dbWidget itemWidget
    (by decide) (by decide)
  exact ⟨h.1, h.2.2.2 false ssWidget rfl rfl (fun _ => rfl) (by decide) (by decide)⟩

/-- C3: evaluation at the failing input.  When the passwords INSERT succeeds
but the sync_queue INSERT fails, savePassword still returns success with the
password row visible and no queue entry (addToSyncQueue swallows the error);
in the other direction, a failing entity INSERT rethrows before any enqueue.
The first conjunct exhibits the non-atomicity the spec rules out. -/
theorem C3_queue_append_failure_leaves_entity_write_visible :
    savePassword true false 7 pdSample dbEmpty
      = Except.ok ({ dbEmpty with
          passwords := [{ id := 1, user_id := 7, title := "t", username := "u",
                          password := "p", website := "w", notes := "n",
                          created_at := 0, updated_at := 0, synced := 0, deleted := 0 }],
          nextPasswordId := 2 }, 1)
    ∧ savePassword false true 7 pdSample dbEmpty
        = Except.error "Failed to save password" := by
  exact ⟨rfl, rfl⟩

/-- C4 counterexample: saveUserOffline succeeds but appends no sync_queue
entry at all, refuting the claim that every successful users mutation enqueues
exactly one entry referencing the record. -/
theorem C4_saveUserOffline_enqueues_nothing :
    queueOfOkId (saveUserOffline true uSample dbEmpty) = some [] := by
  decide

/-- C4 (amended): savePassword, updatePassword and deletePassword each append
exactly one sync_queue entry referencing the written record (operation INSERT,
UPDATE and DELETE respectively) before returning, when the queue INSERT
statement succeeds; saveUserOffline appends none. -/
theorem C4_only_password_writes_enqueue_exactly_one
    (st : DBState) (uid pid : Nat) (pd : PasswordData) (u : UserInfo) :
    queueOfOkId (savePassword true true uid pd st)
      = some (st.sync_queue ++
          [{ id := st.nextQueueId, table_name := "passwords",
             record_id := st.nextPasswordId, operation := "INSERT",
             data := some (serializePasswordData pd), created_at := st.now,
             attempts := 0 }])
    ∧ queueOfOk (updatePassword true true pid pd st)
        = some (st.sync_queue ++
            [{ id := st.nextQueueId, table_name := "passwords", record_id := pid,
               operation := "UPDATE", data := some (serializePasswordData pd),
               created_at := st.now, attempts := 0 }])
    ∧ queueOfOk (deletePassword true true pid st)
        = some (st.sync_queue ++
            [{ id := st.nextQueueId, table_name := "passwords", record_id := pid,
               operation := "DELETE", data := none, created_at := st.now,
               attempts := 0 }])
    ∧ queueOfOkId (saveUserOffline true u st) = some st.sync_queue := by
  exact ⟨rfl, rfl, rfl, rfl⟩

/-- C5: a queue entry whose dispatch throws during a drain cycle stays in the
queue with its attempts counter incremented by exactly one and every other
field unchanged, and it is presented again (same record_id and operation) in
the snapshot the next cycle would read. -/
theorem C5_failed_entry_retained_with_single_increment
    (env : SyncEnv) (force : Bool) (ss : SyncState) (item : SyncQueueItem)
    (hbusy : (ss.syncInProgress && !force) = false)
    (honline : ss.isOnline = true)
    (hincr : ∀ i : Nat, env.incrementAttemptsOk i = true)
    (hnodup : (ss.db.sync_queue.map (fun it => it.id)).Nodup)
    (hmem : item ∈ ss.db.sync_queue)
    (hfail : itemSucceeds env item = false) :
    (performSync env force ss).state.db.sync_queue.filter
        (fun it => it.id == item.id) = [bumpAttempts item]
    ∧ bumpAttempts item ∈ getSyncQueue (performSync env force ss).state.db
    ∧ (bumpAttempts item).record_id = item.record_id
    ∧ (bumpAttempts item).operation = item.operation
    ∧ (bumpAttempts item).attempts = item.attempts + 1 := by
  have h := performSync_entry_fate env force ss item hbusy honline hincr hnodup hmem
  rw [hfail] at h
  simp only [Bool.false_eq_true, if_false] at h
  refine ⟨h, ?_, rfl, rfl, rfl⟩
  rw [mem_getSyncQueue]
  have hmem2 : bumpAttempts item ∈
      (performSync env force ss).state.db.sync_queue.filter (fun it => it.id == item.id) := by
    rw [h]
    exact List.mem_singleton_self _
  exact List.mem_of_mem_filter hmem2

/-- Witness for C5: a concrete password UPDATE entry whose remote call fails
is retained with attempts bumped from 0 to 1. -/
theorem C5_failed_entry_retained_witness :
    itemSucceeds envFailAll itemPwIns = false
    ∧ (performSync envFailAll false ssPw1).state.db.sync_queue.filter
        (fun it => it.id == itemPwIns.id) = [bumpAttempts itemPwIns] := by
  refine ⟨by decide, ?_⟩
  exact (C5_failed_entry_retained_with_single_increment envFailAll false ssPw1 itemPwIns
    rfl rfl (fun _ => rfl) (by decide) (by decide) (by decide)).1

/-- C6: an unforced performSync while a cycle is in progress returns the busy
result, and a performSync that passes the busy guard while offline returns the
offline result; in both cases the service state (queue, record flags, flags)
is unchanged, no events are broadcast, and zero network requests are made. -/
theorem C6_busy_and_offline_short_circuit :
    (∀ (env : SyncEnv) (ss : SyncState), ss.syncInProgress = true →
      performSync env false ss =
        { state := ss,
          result := { success := false, message := "Sync already in progress",
                      syncedCount := none, failedCount := none },
          events := [], gatewayCalls := 0 })
    ∧ (∀ (env : SyncEnv) (force : Bool) (ss : SyncState),
        (ss.syncInProgress && !force) = false → ss.isOnline = false →
        performSync env force ss =
          { state := ss,
            result := { success := false, message := "Device is offline",
                        syncedCount := none, failedCount := none },
            events := [], gatewayCalls := 0 }) := by
  constructor
  · intro env ss h
    unfold performSync
    rw [h]
    simp
  · intro env force ss hb ho
    unfold performSync
    rw [hb, ho]
    simp

/-- Witness for C6: concrete busy and offline invocations. -/
theorem C6_busy_and_offline_short_circuit_witness :
    performSync envOkAll false { isOnline := true, syncInProgress := true, db := dbPw1 }
      = { state := { isOnline := true, syncInProgress := true, db := dbPw1 },
          result := { success := false, message := "Sync already in progress",
                      syncedCount := none, failedCount := none },
          events := [], gatewayCalls := 0 }
    ∧ performSync envOkAll false { isOnline := false, syncInProgress := false, db := dbPw1 }
      = { state := { isOnline := false, syncInProgress := false, db := dbPw1 },
          result := { success := false, message := "Device is offline",
                      syncedCount := none, failedCount := none },
          events := [], gatewayCalls := 0 } :=
  ⟨C6_busy_and_offline_short_circuit.1 envOkAll
      { isOnline := true, syncInProgress := true, db := dbPw1 } rfl,
   C6_busy_and_offline_short_circuit.2 envOkAll false
      { isOnline := false, syncInProgress := false, db := dbPw1 } rfl rfl⟩

/-- C7: whenever the drain cycle body runs (the busy and offline guards pass),
the in-progress flag is false afterwards and the last broadcast event is the
progress-end event, on every outcome of the body (completed or threw); a
subsequent performSync on the resulting state behaves identically forced or
unforced, that is, it is never rejected as busy. -/
theorem C7_cycle_always_resets_in_progress
    (env : SyncEnv) (force : Bool) (ss : SyncState)
    (hbusy : (ss.syncInProgress && !force) = false)
    (honline : ss.isOnline = true) :
    (performSync env force ss).state.syncInProgress = false
    ∧ (performSync env force ss).events.getLast?
        = some (SyncEvent.syncInProgressEvt false)
    ∧ (∀ (env2 : SyncEnv) (f2 : Bool),
        performSync env2 f2 (performSync env force ss).state
          = performSync env2 true (performSync env force ss).state) := by
  have hflag : (performSync env force ss).state.syncInProgress = false := by
    unfold performSync
    rw [hbusy, honline]
    rcases hr : runBody env (getSyncQueue ss.db) ss.db 0 0 with ⟨outcome, calls⟩
    cases outcome <;> rfl
  have hlast : (performSync env force ss).events.getLast?
      = some (SyncEvent.syncInProgressEvt false) := by
    unfold performSync
    rw [hbusy, honline]
    rcases hr : runBody env (getSyncQueue ss.db) ss.db 0 0 with ⟨outcome, calls⟩
    cases outcome <;> rfl
  exact ⟨hflag, hlast,
    fun env2 f2 => performSync_force_irrelevant env2 f2 true _ hflag⟩

/-- Witness for C7: a concrete cycle with a failing remote call still resets
the flag and ends with the progress-end event. -/
theorem C7_cycle_always_resets_in_progress_witness :
    (performSync envFailAll false ssPw1).state.syncInProgress = false
    ∧ (performSync envFailAll false ssPw1).events.getLast?
        = some (SyncEvent.syncInProgressEvt false) := by
  have h := C7_cycle_always_resets_in_progress envFailAll false ssPw1 rfl rfl
  exact ⟨h.1, h.2.1⟩

/-- C8 counterexample: starting offline, two consecutive online reports make
the NetInfo listener emit two identical isOnline events, refuting the claim
that no event is emitted when consecutive observed states are identical. -/
theorem C8_repeated_report_emits_repeated_events :
    (runNetInfoReports false [true, true]).snd.snd
      = [SyncEvent.isOnlineEvt true, SyncEvent.isOnlineEvt true]
    ∧ (runNetInfoReports false [true, true]).snd.snd.length = 2 := by
  decide

/-- C8 (amended): the listener emits exactly one isOnline event per NetInfo
report, whether or not the state changed; only the auto-sync trigger is
edge-triggered, firing exactly once per observed offline-to-online edge. -/
theorem C8_one_event_per_report_autosync_edge_triggered
    (online : Bool) (reports : List Bool) :
    (runNetInfoReports online reports).snd.snd
      = reports.map (fun b => SyncEvent.isOnlineEvt b)
    ∧ (runNetInfoReports online reports).snd.fst = countUpEdges online reports := by
  induction reports generalizing online with
  | nil => exact ⟨rfl, rfl⟩
  | cons c rest ih =>
    refine ⟨?_, ?_⟩
    · simp [runNetInfoReports, netInfoHandler, (ih c).1]
    · simp [runNetInfoReports, netInfoHandler, countUpEdges, (ih c).2]

/-- C9 counterexample: with two subscribers where the first throws, only the
first is invoked and the exception escapes notifyListeners, so the second
never receives the event; this refutes the claim that a throwing subscriber
does not prevent delivery to subsequent subscribers. -/
theorem C9_throwing_subscriber_blocks_later_delivery :
    notifyListeners [{ id := 1, throws := true }, { id := 2, throws := false }]
      = ([1], true) := by
  decide

/-- C9 (amended): delivery is synchronous and in subscription order, and the
pass is computed from the snapshot of the listeners array (so an unsubscribe
during the pass cannot affect it), but a throwing subscriber ends the forEach:
exactly the subscribers up to and including the first thrower are invoked, and
the exception propagates iff some subscriber throws. -/
theorem C9_delivery_in_order_until_first_throw (ls : List Subscriber) :
    (notifyListeners ls).fst
      = (ls.takeWhile (fun c => !c.throws)).map (fun c => c.id)
        ++ ((ls.dropWhile (fun c => !c.throws)).take 1).map (fun c => c.id)
    ∧ (notifyListeners ls).snd = ls.any (fun c => c.throws) := by
  induction ls with
  | nil => exact ⟨rfl, rfl⟩
  | cons c rest ih =>
    by_cases hc : c.throws = true
    · refine ⟨?_, ?_⟩
      · simp [notifyListeners, hc]
      · simp [notifyListeners, hc]
    · refine ⟨?_, ?_⟩
      · simp [notifyListeners, hc, ih.1]
      · simp [notifyListeners, hc, ih.2]

/-- C10: when the drain-cycle body runs to completion, performSync returns
success=true with message Synced N items (N the synced count), even when the
failed count is positive; success=false arises only from the busy guard, the
offline guard, or an exception escaping the cycle body. -/
theorem C10_completed_cycle_reports_success
    : (∀ (env : SyncEnv) (force : Bool) (ss : SyncState) (db : DBState)
         (s f calls : Nat),
        (ss.syncInProgress && !force) = false → ss.isOnline = true →
        runBody env (getSyncQueue ss.db) ss.db 0 0
          = (BodyOutcome.completed db s f, calls) →
        (performSync env force ss).result
          = { success := true, message := "Synced " ++ toString s ++ " items",
              syncedCount := some s, failedCount := some f })
    ∧ (∀ (env : SyncEnv) (force : Bool) (ss : SyncState),
        (performSync env force ss).result.success = false →
        (ss.syncInProgress && !force) = true
        ∨ ss.isOnline = false
        ∨ (∃ msg db calls, runBody env (getSyncQueue ss.db) ss.db 0 0
            = (BodyOutcome.threw msg db, calls))) := by
  constructor
  · intro env force ss db s f calls hb ho hr
    unfold performSync
    rw [hb, ho, hr]
    rfl
  · intro env force ss h
    by_cases hb : (ss.syncInProgress && !force) = true
    · exact Or.inl hb
    · have hb' : (ss.syncInProgress && !force) = false := by
        revert hb
        cases ss.syncInProgress && !force <;> simp
      by_cases ho : ss.isOnline = true
      · right
        right
        unfold performSync at h
        rw [hb', ho] at h
        rcases hr : runBody env (getSyncQueue ss.db) ss.db 0 0 with ⟨outcome, calls⟩
        rw [hr] at h
        cases outcome with
        | completed db s f => simp at h
        | threw msg db => exact ⟨msg, db, calls, rfl⟩
      · have ho' : ss.isOnline = false := by
          revert ho
          cases ss.isOnline <;> simp
        exact Or.inr (Or.inl ho')

/-- Witness for C10: a cycle with one synced and one failed item still returns
success=true and the message Synced 1 items. -/
theorem C10_completed_cycle_reports_success_witness :
    (performSync envMixed false ssPw2).result
      = { success := true, message := "Synced 1 items",
          syncedCount := some 1, failedCount := some 1 } :=
  C10_completed_cycle_reports_success.1 envMixed false ssPw2 dbAfterC10 1 1 2
    rfl rfl (by decide)
